import Mathlib

/-!
Shallow embedding of the credential login flow of the admin-dashboard
repository: the `authorize` function of the NextAuth credentials provider
(auth.config.ts), the `loginAction` server action
(src/app/(main)/auth/v1/login/actions.ts), and the route-guard proxy
middleware (src/proxy.ts), together with the JWT/session callbacks.

JavaScript strings are modelled as Lean `String` (sequences of Unicode code
points); the JavaScript string methods the source uses are re-implemented
structurally below so that they evaluate inside the kernel.
-/

/-- Model of JavaScript `Array`/string prefix testing on code-point lists:
`listStartsWith l p` holds when `p` is an initial segment of `l`. -/
def listStartsWith : List Char → List Char → Bool
  | _, [] => true
  | [], _ :: _ => false
  | a :: as, b :: bs => a == b && listStartsWith as bs

/-- Model of JavaScript `String.prototype.startsWith`, used by
src/proxy.ts line 9 (`pathname.startsWith("/dashboard")`). -/
def strStartsWith (s p : String) : Bool :=
  listStartsWith s.data p.data

/-- UTF-8 encoding of a single code point as a list of byte values. -/
def utf8Bytes (c : Char) : List Nat :=
  let n := c.toNat
  if n < 128 then [n]
  else if n < 2048 then [192 + n / 64, 128 + n % 64]
  else if n < 65536 then [224 + n / 4096, 128 + (n / 64) % 64, 128 + n % 64]
  else [240 + n / 262144, 128 + (n / 4096) % 64, 128 + (n / 64) % 64, 128 + n % 64]

/-- Uppercase hexadecimal digit for a value below 16. -/
def percentHexDigit (n : Nat) : Char :=
  if n < 10 then Char.ofNat (48 + n) else Char.ofNat (55 + n)

/-- Encoding of one byte under the `application/x-www-form-urlencoded`
serializer used by `URLSearchParams` (src/proxy.ts line 12): ASCII
alphanumerics and `*`, `-`, `.`, `_` pass through, space becomes `+`, every
other byte becomes `%` followed by two uppercase hex digits. -/
def urlencodeByte (b : Nat) : List Char :=
  if (Char.ofNat b).isAlphanum || b = 42 || b = 45 || b = 46 || b = 95 then
    [Char.ofNat b]
  else if b = 32 then ['+']
  else ['%', percentHexDigit (b / 16), percentHexDigit (b % 16)]

/-- Model of the `URLSearchParams.set` percent-encoding applied to the
`from` parameter value in src/proxy.ts line 12. -/
def urlencode (s : String) : String :=
  String.mk (((s.data.map utf8Bytes).flatten).map urlencodeByte).flatten

/-- Splitting a code-point list at every occurrence of a separator
character (used to model the `@` and `.` structure of the zod email
shape). -/
def splitOnChar (sep : Char) : List Char → List (List Char)
  | [] => [[]]
  | c :: rest =>
    let r := splitOnChar sep rest
    if c == sep then [] :: r
    else
      match r with
      | [] => [[c]]
      | h :: t => (c :: h) :: t

/-- Characters the zod email check admits in the local part:
ASCII alphanumerics and `_`, `'`, `+`, `-`, `.` (apostrophe is code 39). -/
def isEmailLocalChar (c : Char) : Bool :=
  c.isAlphanum || c == '_' || c.toNat == 39 || c == '+' || c == '-' || c == '.'

/-- Characters the zod email check admits as the final character of the
local part (no dot and no apostrophe). -/
def isEmailLocalEndChar (c : Char) : Bool :=
  c.isAlphanum || c == '_' || c == '+' || c == '-'

/-- Test for two consecutive dots in a code-point list. -/
def noConsecutiveDots : List Char → Bool
  | [] => true
  | [_] => true
  | a :: b :: rest => !(a == '.' && b == '.') && noConsecutiveDots (b :: rest)

/-- Validity of the local part of an email address under the zod shape:
nonempty, no leading dot, no consecutive dots, every character admissible,
and the final character from the restricted end set. -/
def emailLocalOk (l : List Char) : Bool :=
  match l with
  | [] => false
  | c :: _ =>
    !(c == '.') && l.all isEmailLocalChar && noConsecutiveDots l &&
      (match l.getLast? with
       | some e => isEmailLocalEndChar e
       | none => false)

/-- Validity of a non-final domain label: nonempty, leading alphanumeric,
remaining characters alphanumeric or hyphen. -/
def emailDomainLabelOk (l : List Char) : Bool :=
  match l with
  | [] => false
  | c :: rest => c.isAlphanum && rest.all (fun d => d.isAlphanum || d == '-')

/-- Validity of the final domain label (top-level domain): at least two
characters, all alphabetic. -/
def emailTldOk (l : List Char) : Bool :=
  decide (2 ≤ l.length) && l.all Char.isAlpha

/-- Validity of the domain part: at least two dot-separated labels, each
non-final label a valid label and the final one a valid TLD. -/
def emailDomainOk (d : List Char) : Bool :=
  let labels := splitOnChar '.' d
  decide (2 ≤ labels.length) && labels.dropLast.all emailDomainLabelOk &&
    (match labels.getLast? with
     | some t => emailTldOk t
     | none => false)

/-- Modelled from the spec: `email` must match a standard address shape.
The check itself lives in the external zod library (`z.string().email()`,
auth.config.ts line 21 and actions.ts line 9), not in this repository; this
definition follows zod's documented address shape: a single `@` separating
a valid local part from a valid dotted domain. -/
def isEmailShape (s : String) : Bool :=
  match splitOnChar '@' s.data with
  | [l, d] => emailLocalOk l && emailDomainOk d
  | _ => false

/-- Raw credentials as the NextAuth credentials provider hands them to
`authorize` (auth.config.ts line 16): each field may be absent. -/
structure RawCredentials where
  email : Option String
  password : Option String
deriving DecidableEq, Repr

/-- Validated credentials after the zod schema succeeds. -/
structure Credentials where
  email : String
  password : String
deriving DecidableEq, Repr

/-- Model of `schema.safeParse(credentials)` in auth.config.ts lines 20-25:
both fields must be present strings, the email must match the zod address
shape, and the password must have length at least 6. (JavaScript counts
UTF-16 units; for the code points involved here `String.length` agrees.) -/
def credentialsParse (c : RawCredentials) : Option Credentials :=
  match c.email, c.password with
  | some e, some p =>
    if isEmailShape e && decide (6 ≤ p.length) then some ⟨e, p⟩ else none
  | _, _ => none

/-- Stored user record, after prisma/schema.prisma (`model User`). -/
structure UserRecord where
  id : String
  email : String
  name : Option String
  passwordHash : String
  role : String
  createdAt : Nat
deriving DecidableEq, Repr

/-- Model of `prisma.user.findUnique({ where: { email } })` in
auth.config.ts lines 35-37: the stored table is a list of records and the
lookup returns the record with the given (unique) email, if any. -/
def findUnique (db : List UserRecord) (email : String) : Option UserRecord :=
  db.find? (fun u => u.email == email)

/-- User object returned by `authorize` on success
(auth.config.ts lines 60-65). -/
structure SessionUser where
  id : String
  email : String
  name : Option String
  role : String
deriving DecidableEq, Repr

/-- Model of `authorize` in auth.config.ts lines 16-66, parameterised by
the database contents and by the bcrypt comparison function
`verify plaintext storedHash` (an external library call): validate with
zod, return null on failure; look the email up, return null when absent;
compare the password against the stored hash, return null on mismatch;
otherwise return the `{id, email, name, role}` projection of the record. -/
def authorize (verify : String → String → Bool) (db : List UserRecord)
    (creds : RawCredentials) : Option SessionUser :=
  match credentialsParse creds with
  | none => none
  | some parsed =>
    match findUnique db parsed.email with
    | none => none
    | some user =>
      if verify parsed.password user.passwordHash then
        some ⟨user.id, user.email, user.name, user.role⟩
      else none

/-- Observable steps of `authorize`, in source order: the zod validation,
the database lookup, and the bcrypt comparison. -/
inductive AuthStep where
  | zodValidate
  | dbLookup
  | bcryptCompare
deriving DecidableEq, Repr

/-- Instrumented `authorize` (same control flow as auth.config.ts lines
16-66) that also records which steps execute: validation failure stops
after the zod step; a missing record stops after the lookup (the `if
(!user) return null` on lines 39-42 runs before `bcrypt.compare` on lines
46-49); only a found record reaches the bcrypt comparison. -/
def authorizeSteps (verify : String → String → Bool) (db : List UserRecord)
    (creds : RawCredentials) : List AuthStep × Option SessionUser :=
  match credentialsParse creds with
  | none => ([.zodValidate], none)
  | some parsed =>
    match findUnique db parsed.email with
    | none => ([.zodValidate, .dbLookup], none)
    | some user =>
      if verify parsed.password user.passwordHash then
        ([.zodValidate, .dbLookup, .bcryptCompare],
          some ⟨user.id, user.email, user.name, user.role⟩)
      else ([.zodValidate, .dbLookup, .bcryptCompare], none)

/-- JWT claims as they appear after issuance: the framework-seeded claims
`sub`, `name`, `email` plus the `role` and `id` claims added by the jwt
callback. -/
structure Token where
  sub : Option String
  name : Option String
  email : Option String
  role : Option String
  id : Option String
deriving DecidableEq, Repr

/-- Modelled from the spec: the Session Issuer (the NextAuth JWT layer,
external to this repository) seeds the fresh token's claims from the user
object returned by `authorize` — subject from `id`, plus `name` and
`email` — before the repository's jwt callback runs; "claims are a
verbatim snapshot of the UserRecord at issuance time". -/
def initialToken (u : SessionUser) : Token :=
  ⟨some u.id, u.name, some u.email, none, none⟩

/-- Model of the `jwt` callback in auth.config.ts lines 72-79: on sign-in
(a user object is present) it copies `role` and `id` from the user onto
the token; otherwise the token passes through unchanged. -/
def jwtCallback (token : Token) (user : Option SessionUser) : Token :=
  match user with
  | some u => { token with role := some u.role, id := some u.id }
  | none => token

/-- Token issued on a successful sign-in: the framework-seeded claims with
the jwt callback applied. -/
def issueToken (u : SessionUser) : Token :=
  jwtCallback (initialToken u) (some u)

/-- Session user object exposed to the application. -/
structure SessionInfo where
  email : Option String
  name : Option String
  role : Option String
  id : Option String
deriving DecidableEq, Repr

/-- Session object handed to the `session` callback. -/
structure SessionData where
  user : Option SessionInfo
deriving DecidableEq, Repr

/-- Model of the `session` callback in auth.config.ts lines 80-87: when a
user object is present on the session, copy `role` and `id` from the
token onto it. -/
def sessionCallback (s : SessionData) (token : Token) : SessionData :=
  match s.user with
  | some u => ⟨some { u with role := token.role, id := token.id }⟩
  | none => s

/-- Exceptions that can cross the `signIn` / `loginAction` boundary: a
NextAuth `AuthError` carrying its `type` string, the framework's in-band
redirect signal (thrown on successful sign-in with a `redirectTo`
target), or a zod validation error. -/
inductive Thrown where
  | authError (errType : String)
  | redirectSignal (target : String)
  | zodError (message : String)
deriving DecidableEq, Repr

/-- Decidable equality for `Except`, needed to evaluate concrete login
outcomes. -/
instance {ε : Type u} {α : Type v} [DecidableEq ε] [DecidableEq α] :
    DecidableEq (Except ε α) := fun x y =>
  match x, y with
  | .ok a, .ok b =>
    if h : a = b then .isTrue (by rw [h])
    else .isFalse (fun he => h (Except.ok.inj he))
  | .ok _, .error _ => .isFalse (fun he => Except.noConfusion he)
  | .error _, .ok _ => .isFalse (fun he => Except.noConfusion he)
  | .error a, .error b =>
    if h : a = b then .isTrue (by rw [h])
    else .isFalse (fun he => h (Except.error.inj he))

/-- Outcome of a `signIn` call: the session token established (if any)
and either a normal return or a thrown exception. -/
structure SignInResult where
  session : Option Token
  outcome : Except Thrown Unit
deriving DecidableEq, Repr

/-- Modelled from the spec: the framework `signIn("credentials", ...)`
wrapper around `authorize` (auth.ts, not under src/). A collaborator
failure (`fault = some t`, e.g. storage unavailable) surfaces as an
`AuthError` of some type `t` other than a credentials failure and
establishes no session; `authorize` returning null surfaces as an
`AuthError` of type `CredentialsSignin`; `authorize` returning a user
establishes the session (the issued JWT) and then throws the in-band
redirect signal towards `redirectTo`. -/
def signInCredentials (verify : String → String → Bool) (db : List UserRecord)
    (fault : Option String) (creds : RawCredentials) (redirectTo : String) :
    SignInResult :=
  match fault with
  | some t => ⟨none, .error (.authError t)⟩
  | none =>
    match authorize verify db creds with
    | none => ⟨none, .error (.authError "CredentialsSignin")⟩
    | some u => ⟨some (issueToken u), .error (.redirectSignal redirectTo)⟩

/-- Form fields as read by `formData.get` in actions.ts lines 25-27: each
may be absent (`null`). -/
structure LoginFormData where
  email : Option String
  password : Option String
  fromField : Option String
deriving DecidableEq, Repr

/-- Model of `LoginState` in actions.ts lines 14-17: the action returns
either `{ error }` or `{ success: true }`. -/
structure LoginState where
  error : Option String
  success : Bool
deriving DecidableEq, Repr

/-- Model of `formData.get("from") || "/dashboard/default"` in actions.ts
line 27: a missing or empty (falsy) `from` field falls back to the fixed
default dashboard path. -/
def resolveFrom (fromField : Option String) : String :=
  match fromField with
  | none => "/dashboard/default"
  | some s => if s = "" then "/dashboard/default" else s

/-- Model of `loginSchema.parse` in actions.ts lines 8-12 and 24-28:
`email` must be a present string matching the address shape, `password` a
present string of length at least 6; the (already defaulted, hence always
present) `from` string passes through. On failure `parse` throws a
`ZodError`; the message recorded here is the first failing field's
message. -/
def loginSchemaParse (email password : Option String) (fromVal : String) :
    Except String (Credentials × String) :=
  match email with
  | none => .error "Expected string, received null"
  | some e =>
    if !isEmailShape e then .error "Invalid email address"
    else
      match password with
      | none => .error "Expected string, received null"
      | some p =>
        if decide (p.length < 6) then
          .error "Password must be at least 6 characters"
        else .ok (⟨e, p⟩, fromVal)

/-- Combined observable outcome of one `loginAction` call: the session
token established during the call (if any) and either the returned
`LoginState` or the exception the action let escape. -/
structure LoginOutcome where
  session : Option Token
  result : Except Thrown LoginState
deriving DecidableEq, Repr

/-- Model of `loginAction` in actions.ts lines 19-48: default the `from`
field, parse with the zod schema (a parse failure throws a `ZodError`,
which the catch block re-throws because it is not an `AuthError`), call
`signIn` with the validated credentials and `redirectTo`; a normal return
yields `{ success: true }`; a caught `AuthError` of type
`CredentialsSignin` yields `{ error: "Invalid email or password" }`, any
other `AuthError` yields `{ error: "Something went wrong. Please try
again." }`; every non-`AuthError` exception (in particular the redirect
signal of a successful login) is re-thrown. -/
def loginAction (verify : String → String → Bool) (db : List UserRecord)
    (fault : Option String) (fd : LoginFormData) : LoginOutcome :=
  let fromVal := resolveFrom fd.fromField
  match loginSchemaParse fd.email fd.password fromVal with
  | .error m => ⟨none, .error (.zodError m)⟩
  | .ok (creds, fromV) =>
    let r := signInCredentials verify db fault
      ⟨some creds.email, some creds.password⟩ fromV
    match r.outcome with
    | .ok _ => ⟨r.session, .ok ⟨none, true⟩⟩
    | .error (.authError t) =>
      if t = "CredentialsSignin" then
        ⟨r.session, .ok ⟨some "Invalid email or password", false⟩⟩
      else
        ⟨r.session, .ok ⟨some "Something went wrong. Please try again.", false⟩⟩
    | .error e => ⟨r.session, .error e⟩

/-- Failure test on a `loginAction` outcome, following the spec's
`LoginResult` taxonomy: a returned state carrying an error message, or an
escaped zod/auth error, is a failure; the escaped redirect signal is the
success path. -/
def isLoginFailure (r : Except Thrown LoginState) : Bool :=
  match r with
  | .ok s => s.error.isSome
  | .error (.zodError _) => true
  | .error (.authError _) => true
  | .error (.redirectSignal _) => false

/-- Incoming request as the proxy middleware sees it (src/proxy.ts
lines 5-6): the pathname, the serialized query string
(`searchParams.toString()`, empty when there is none), and whether
`req.auth` carries a verified session. -/
structure GuardRequest where
  pathname : String
  search : String
  authenticated : Bool
deriving DecidableEq, Repr

/-- Response of the proxy middleware: a redirect (recorded as the target's
path and query) or passing the request through. -/
inductive GuardResponse where
  | redirect (location : String)
  | next
deriving DecidableEq, Repr

/-- Value the guard stores in the `from` parameter (src/proxy.ts lines
11-12): the original pathname, plus `?` and the query string when one is
present. -/
def loginFromParam (req : GuardRequest) : String :=
  req.pathname ++ (if req.search = "" then "" else "?" ++ req.search)

/-- Model of the middleware body in src/proxy.ts lines 5-17: a request
whose pathname starts with `/dashboard` and which carries no verified
session is redirected to `/auth/v1/login` with the original path and
query percent-encoded into the `from` parameter; every other request
passes through. -/
def proxyHandler (req : GuardRequest) : GuardResponse :=
  if strStartsWith req.pathname "/dashboard" && !req.authenticated then
    .redirect ("/auth/v1/login?from=" ++ urlencode (loginFromParam req))
  else .next

/-- Model of `config.matcher = ["/dashboard/:path*"]` in src/proxy.ts
lines 19-21: the pattern matches `/dashboard` itself and every path below
`/dashboard/` (path-to-regexp `:path*` semantics), and the middleware
runs only on matching paths. -/
def matcherMatches (pathname : String) : Bool :=
  pathname = "/dashboard" || strStartsWith pathname "/dashboard/"

/-- Complete route guard: requests whose pathname the matcher does not
cover never reach the middleware body. -/
def routeGuard (req : GuardRequest) : GuardResponse :=
  if matcherMatches req.pathname then proxyHandler req else .next

/-- Concrete bcrypt model for witnesses: a password matches a stored hash
exactly when the hash is the tag `hash:` followed by the password. -/
def testVerify (password storedHash : String) : Bool :=
  storedHash = "hash:" ++ password

/-- Concrete seeded record for witnesses, after prisma/seed.ts. -/
def adminRecord : UserRecord :=
  ⟨"u1", "admin@example.com", some "Admin", "hash:admin123", "admin", 0⟩

/-- Concrete database for witnesses. -/
def testDb : List UserRecord := [adminRecord]

/-- Appending to a list preserves an initial segment. -/
theorem listStartsWith_append (l m p : List Char) (h : listStartsWith l p = true) :
    listStartsWith (l ++ m) p = true := by
  induction p generalizing l with
  | nil => simp [listStartsWith]
  | cons b bs ih =>
    match l with
    | [] => simp [listStartsWith] at h
    | a :: as =>
      simp only [listStartsWith, Bool.and_eq_true, beq_iff_eq] at h
      simp only [List.cons_append, listStartsWith, Bool.and_eq_true, beq_iff_eq]
      exact ⟨h.1, ih as h.2⟩

/-- An initial segment of a list is also an initial segment when the
tested pattern is shortened. -/
theorem listStartsWith_of_append (l p q : List Char)
    (h : listStartsWith l (p ++ q) = true) : listStartsWith l p = true := by
  induction p generalizing l with
  | nil => simp [listStartsWith]
  | cons a as ih =>
    match l with
    | [] => simp [listStartsWith] at h
    | c :: cs =>
      simp only [List.cons_append, listStartsWith, Bool.and_eq_true, beq_iff_eq] at h
      simp only [listStartsWith, Bool.and_eq_true, beq_iff_eq]
      exact ⟨h.1, ih cs h.2⟩

/-- A list starting with a two-character pattern exposes those two
characters. -/
theorem listStartsWith_shape (l : List Char) (a b : Char) (r : List Char)
    (h : listStartsWith l (a :: b :: r) = true) : ∃ t, l = a :: b :: t := by
  match l with
  | [] => simp [listStartsWith] at h
  | [c] => simp [listStartsWith] at h
  | c :: d :: t =>
    simp only [listStartsWith, Bool.and_eq_true, beq_iff_eq] at h
    exact ⟨t, by rw [h.1, h.2.1]⟩

/-- String-level version of `listStartsWith_append`. -/
theorem strStartsWith_append (a b p : String) (h : strStartsWith a p = true) :
    strStartsWith (a ++ b) p = true := by
  unfold strStartsWith at h ⊢
  rw [String.data_append]
  exact listStartsWith_append _ _ _ h

/-- Every pathname the matcher accepts starts with `/dashboard`. -/
theorem matcher_startsWith (p : String) (h : matcherMatches p = true) :
    strStartsWith p "/dashboard" = true := by
  simp only [matcherMatches, Bool.or_eq_true, decide_eq_true_eq] at h
  rcases h with h | h
  · rw [h]; decide
  · unfold strStartsWith at h ⊢
    have hd : "/dashboard/".data = "/dashboard".data ++ ['/'] := rfl
    rw [hd] at h
    exact listStartsWith_of_append _ _ _ h

/-- A string starting with `/dashboard` does not start with `//`, hence is
not a protocol-relative URL. -/
theorem startsWith_dashboard_not_doubleslash (s : String)
    (h : strStartsWith s "/dashboard" = true) : strStartsWith s "//" = false := by
  unfold strStartsWith at h ⊢
  have hd : "/dashboard".data = '/' :: 'd' :: "ashboard".data := rfl
  rw [hd] at h
  obtain ⟨t, ht⟩ := listStartsWith_shape _ _ _ _ h
  rw [ht]
  rfl

/-- Parsing validated fields succeeds in the login schema. -/
theorem loginSchemaParse_ok (e p fv : String) (hv : isEmailShape e = true)
    (hl : 6 ≤ p.length) :
    loginSchemaParse (some e) (some p) fv = .ok (⟨e, p⟩, fv) := by
  have hnl : ¬(p.length < 6) := by omega
  simp [loginSchemaParse, hv, hnl]

/-- Parsing validated fields succeeds in the authorize-side schema. -/
theorem credentialsParse_ok (e p : String) (hv : isEmailShape e = true)
    (hl : 6 ≤ p.length) :
    credentialsParse ⟨some e, some p⟩ = some ⟨e, p⟩ := by
  simp [credentialsParse, hv, hl]

/-- C1: for every login attempt that passes input validation, the outcome
for an email with no matching user record is identical to the outcome for
an existing user with a wrong password: both return the same
`{ error: "Invalid email or password" }` state (the `CredentialsSignin`
mapping), so the result never reveals which of the two cases occurred. -/
theorem login_unknown_email_eq_wrong_password (verify : String → String → Bool)
    (db : List UserRecord) (fd : LoginFormData) (e p : String)
    (he : fd.email = some e) (hp : fd.password = some p)
    (hv : isEmailShape e = true) (hl : 6 ≤ p.length)
    (h : findUnique db e = none ∨
      ∃ u, findUnique db e = some u ∧ verify p u.passwordHash = false) :
    (loginAction verify db none fd).result =
      .ok ⟨some "Invalid email or password", false⟩ := by
  have hauth : authorize verify db ⟨some e, some p⟩ = none := by
    rcases h with hnone | ⟨u, hu, hver⟩
    · simp [authorize, credentialsParse_ok e p hv hl, hnone]
    · simp [authorize, credentialsParse_ok e p hv hl, hu, hver]
  simp [loginAction, he, hp, loginSchemaParse_ok e p _ hv hl,
    signInCredentials, hauth]

/-- Witness for C1: against the seeded database, the unknown email
`ghost@example.com` and the wrong password `wrongpass` for the existing
`admin@example.com` both yield exactly the same returned state. -/
theorem login_unknown_email_eq_wrong_password_witness :
    (loginAction testVerify testDb none
      ⟨some "ghost@example.com", some "admin123", none⟩).result =
      .ok ⟨some "Invalid email or password", false⟩ ∧
    (loginAction testVerify testDb none
      ⟨some "admin@example.com", some "wrongpass", none⟩).result =
      .ok ⟨some "Invalid email or password", false⟩ := by
  constructor
  · exact login_unknown_email_eq_wrong_password testVerify testDb
      ⟨some "ghost@example.com", some "admin123", none⟩ "ghost@example.com"
      "admin123" rfl rfl (by decide) (by decide) (Or.inl (by decide))
  · exact login_unknown_email_eq_wrong_password testVerify testDb
      ⟨some "admin@example.com", some "wrongpass", none⟩ "admin@example.com"
      "wrongpass" rfl rfl (by decide) (by decide)
      (Or.inr ⟨adminRecord, by decide, by decide⟩)

/-- C2 counterexample: for the concrete attempt with valid shape, email
`ghost@example.com` and password `admin123` against the seeded database,
User Lookup finds no record and the bcrypt comparison step is never
executed — `authorize` short-circuits instead of proceeding to the
password-verification step with a null record. -/
theorem authorize_missing_record_skips_bcrypt_cex :
    findUnique testDb "ghost@example.com" = none ∧
    AuthStep.bcryptCompare ∉
      (authorizeSteps testVerify testDb
        ⟨some "ghost@example.com", some "admin123"⟩).1 := by
  decide

/-- C2 amended: when User Lookup finds no record for a (validly shaped)
email, `authorize` short-circuits: it returns null immediately after the
lookup, the password-verification step never executes, and the returned
outcome is the same null as for a wrong password. -/
theorem authorize_missing_record_short_circuits (verify : String → String → Bool)
    (db : List UserRecord) (e p : String)
    (hv : isEmailShape e = true) (hl : 6 ≤ p.length)
    (hnone : findUnique db e = none) :
    authorizeSteps verify db ⟨some e, some p⟩ =
      ([AuthStep.zodValidate, AuthStep.dbLookup], none) ∧
    AuthStep.bcryptCompare ∉ (authorizeSteps verify db ⟨some e, some p⟩).1 := by
  have hsteps : authorizeSteps verify db ⟨some e, some p⟩ =
      ([AuthStep.zodValidate, AuthStep.dbLookup], none) := by
    simp [authorizeSteps, credentialsParse_ok e p hv hl, hnone]
  refine ⟨hsteps, ?_⟩
  rw [hsteps]
  decide

/-- Witness for the amended C2, at the concrete unknown email. -/
theorem authorize_missing_record_short_circuits_witness :
    authorizeSteps testVerify testDb
      ⟨some "ghost@example.com", some "admin123"⟩ =
      ([AuthStep.zodValidate, AuthStep.dbLookup], none) ∧
    AuthStep.bcryptCompare ∉
      (authorizeSteps testVerify testDb
        ⟨some "ghost@example.com", some "admin123"⟩).1 :=
  authorize_missing_record_short_circuits testVerify testDb
    "ghost@example.com" "admin123" (by decide) (by decide) (by decide)

/-- C3: at the failing input `email = "ghost"` (malformed: no `@`),
`password = "admin123"`, the login action does not return a `LoginState`:
the `ZodError` thrown by `loginSchema.parse` is caught, found not to be an
`AuthError`, and re-thrown, so an uncaught fault escapes to the caller
(and no session is established). The claim — and the catch block's own
comment, which reserves the re-throw for the redirect success signal —
say a validation failure should instead yield the `InvalidInput` state. -/
theorem loginAction_malformed_email_throws_zodError :
    loginAction testVerify testDb none
      ⟨some "ghost", some "admin123", none⟩ =
      ⟨none, .error (.zodError "Invalid email address")⟩ := by
  decide

/-- C4: for a login attempt with an email matching a stored record and the
correct password for that record, the action succeeds — the in-band
redirect signal escapes — and the issued session token's decoded claims
carry exactly the `{id, email, name, role}` fields of that record. -/
theorem login_success_token_claims (verify : String → String → Bool)
    (db : List UserRecord) (fd : LoginFormData) (e p : String) (rec : UserRecord)
    (he : fd.email = some e) (hp : fd.password = some p)
    (hv : isEmailShape e = true) (hl : 6 ≤ p.length)
    (hfind : findUnique db e = some rec)
    (hverify : verify p rec.passwordHash = true) :
    (loginAction verify db none fd).session =
      some ⟨some rec.id, rec.name, some rec.email, some rec.role, some rec.id⟩ ∧
    (loginAction verify db none fd).result =
      .error (.redirectSignal (resolveFrom fd.fromField)) := by
  have hauth : authorize verify db ⟨some e, some p⟩ =
      some ⟨rec.id, rec.email, rec.name, rec.role⟩ := by
    simp [authorize, credentialsParse_ok e p hv hl, hfind, hverify]
  constructor <;>
    simp [loginAction, he, hp, loginSchemaParse_ok e p _ hv hl,
      signInCredentials, hauth, issueToken, initialToken, jwtCallback]

/-- Witness for C4: logging in as the seeded admin record with the correct
password issues a token whose claims are the admin record's
`{id, email, name, role}`. -/
theorem login_success_token_claims_witness :
    (loginAction testVerify testDb none
      ⟨some "admin@example.com", some "admin123", none⟩).session =
      some ⟨some "u1", some "Admin", some "admin@example.com",
        some "admin", some "u1"⟩ ∧
    (loginAction testVerify testDb none
      ⟨some "admin@example.com", some "admin123", none⟩).result =
      .error (.redirectSignal "/dashboard/default") :=
  login_success_token_claims testVerify testDb
    ⟨some "admin@example.com", some "admin123", none⟩
    "admin@example.com" "admin123" adminRecord rfl rfl
    (by decide) (by decide) (by decide) (by decide)

/-- C5: every unauthenticated request to a protected path (one the
`/dashboard/:path*` matcher covers) is redirected to the login entry
point with the originally requested path plus its query string carried
percent-encoded in the `from` query parameter. -/
theorem routeGuard_unauthenticated_redirects_with_from (req : GuardRequest)
    (hm : matcherMatches req.pathname = true)
    (ha : req.authenticated = false) :
    routeGuard req =
      .redirect ("/auth/v1/login?from=" ++ urlencode (loginFromParam req)) := by
  have hs := matcher_startsWith req.pathname hm
  simp [routeGuard, hm, proxyHandler, hs, ha]

/-- Witness for C5: the unauthenticated request to
`/dashboard/reports?x=1` redirects to
`/auth/v1/login?from=%2Fdashboard%2Freports%3Fx%3D1`. -/
theorem routeGuard_unauthenticated_redirects_with_from_witness :
    routeGuard ⟨"/dashboard/reports", "x=1", false⟩ =
      .redirect "/auth/v1/login?from=%2Fdashboard%2Freports%3Fx%3D1" :=
  (routeGuard_unauthenticated_redirects_with_from
    ⟨"/dashboard/reports", "x=1", false⟩ (by decide) rfl).trans (by decide)

/-- C6: the route guard never intercepts the login entry point, nor any
path the protected-path matcher does not cover: such requests proceed
untouched regardless of authentication state, so no redirect loop can
occur. -/
theorem routeGuard_never_intercepts_login (req : GuardRequest)
    (h : req.pathname = "/auth/v1/login" ∨ matcherMatches req.pathname = false) :
    routeGuard req = .next := by
  rcases h with h | h
  · have hm : matcherMatches "/auth/v1/login" = false := by decide
    simp [routeGuard, h, hm]
  · simp [routeGuard, h]

/-- Witness for C6: an unauthenticated request to the login path itself
passes through. -/
theorem routeGuard_never_intercepts_login_witness :
    routeGuard ⟨"/auth/v1/login", "", false⟩ = .next :=
  routeGuard_never_intercepts_login ⟨"/auth/v1/login", "", false⟩ (Or.inl rfl)

/-- C7: for validated input, the login action maps every `AuthError` whose
type is not `CredentialsSignin` (an unexpected collaborator failure) to
the fixed generic `{ error: "Something went wrong. Please try again." }`
state — leaking no diagnostic detail and establishing no session — and on
a successful sign-in it re-propagates the framework's in-band redirect
signal (a non-`AuthError` exception) instead of swallowing it or mapping
it to a failure. -/
theorem loginAction_error_mapping_and_redirect_propagation
    (verify : String → String → Bool) (db : List UserRecord)
    (fd : LoginFormData) (e p : String)
    (he : fd.email = some e) (hp : fd.password = some p)
    (hv : isEmailShape e = true) (hl : 6 ≤ p.length) :
    (∀ t, t ≠ "CredentialsSignin" →
      (loginAction verify db (some t) fd).result =
        .ok ⟨some "Something went wrong. Please try again.", false⟩ ∧
      (loginAction verify db (some t) fd).session = none) ∧
    (∀ u, authorize verify db ⟨some e, some p⟩ = some u →
      (loginAction verify db none fd).result =
        .error (.redirectSignal (resolveFrom fd.fromField))) := by
  constructor
  · intro t ht
    constructor <;>
      simp [loginAction, he, hp, loginSchemaParse_ok e p _ hv hl,
        signInCredentials, ht]
  · intro u hu
    simp [loginAction, he, hp, loginSchemaParse_ok e p _ hv hl,
      signInCredentials, hu]

/-- Witness for C7: a `CallbackRouteError` collaborator failure yields
the generic message with no session, and the successful admin login
re-propagates the redirect signal. -/
theorem loginAction_error_mapping_witness :
    ("CallbackRouteError" ≠ "CredentialsSignin") ∧
    (loginAction testVerify testDb (some "CallbackRouteError")
      ⟨some "admin@example.com", some "admin123", none⟩).result =
      .ok ⟨some "Something went wrong. Please try again.", false⟩ ∧
    (loginAction testVerify testDb none
      ⟨some "admin@example.com", some "admin123", none⟩).result =
      .error (.redirectSignal "/dashboard/default") := by
  have h := loginAction_error_mapping_and_redirect_propagation testVerify
    testDb ⟨some "admin@example.com", some "admin123", none⟩
    "admin@example.com" "admin123" rfl rfl (by decide) (by decide)
  exact ⟨by decide, (h.1 "CallbackRouteError" (by decide)).1,
    h.2 ⟨"u1", "admin@example.com", some "Admin", "admin"⟩ (by decide)⟩

/-- C8 counterexample: a successful login submitted with `from = ""`
redirects to `/dashboard/default`, not to the submitted `from` value —
the `formData.get("from") || "/dashboard/default"` fallback treats the
empty string as absent, so the redirect target differs from the submitted
value. -/
theorem login_empty_from_redirects_to_default_cex :
    (loginAction testVerify testDb none
      ⟨some "admin@example.com", some "admin123", some ""⟩).result =
      .error (.redirectSignal "/dashboard/default") ∧
    ("/dashboard/default" : String) ≠ "" := by
  decide

/-- C8 amended: on a successful login the redirect target equals the
submitted `from` value when that value is a non-empty string; when `from`
is absent or the empty string it equals the fixed default dashboard path
`/dashboard/default`. -/
theorem login_success_redirect_target (verify : String → String → Bool)
    (db : List UserRecord) (fd : LoginFormData) (e p : String) (rec : UserRecord)
    (he : fd.email = some e) (hp : fd.password = some p)
    (hv : isEmailShape e = true) (hl : 6 ≤ p.length)
    (hfind : findUnique db e = some rec)
    (hverify : verify p rec.passwordHash = true) :
    (loginAction verify db none fd).result =
      .error (.redirectSignal (resolveFrom fd.fromField)) ∧
    (∀ s, fd.fromField = some s → s ≠ "" → resolveFrom fd.fromField = s) ∧
    (fd.fromField = none → resolveFrom fd.fromField = "/dashboard/default") ∧
    (fd.fromField = some "" → resolveFrom fd.fromField = "/dashboard/default") := by
  have hauth : authorize verify db ⟨some e, some p⟩ =
      some ⟨rec.id, rec.email, rec.name, rec.role⟩ := by
    simp [authorize, credentialsParse_ok e p hv hl, hfind, hverify]
  refine ⟨?_, ?_, ?_, ?_⟩
  · simp [loginAction, he, hp, loginSchemaParse_ok e p _ hv hl,
      signInCredentials, hauth]
  · intro s hs hne
    simp [resolveFrom, hs, hne]
  · intro hs
    simp [resolveFrom, hs]
  · intro hs
    simp [resolveFrom, hs]

/-- Witness for the amended C8: a successful login with the non-empty
submitted value `/dashboard/reports?x=1` redirects exactly there. -/
theorem login_success_redirect_target_witness :
    (loginAction testVerify testDb none
      ⟨some "admin@example.com", some "admin123",
        some "/dashboard/reports?x=1"⟩).result =
      .error (.redirectSignal (resolveFrom (some "/dashboard/reports?x=1"))) ∧
    resolveFrom (some "/dashboard/reports?x=1") = "/dashboard/reports?x=1" := by
  have h := login_success_redirect_target testVerify testDb
    ⟨some "admin@example.com", some "admin123", some "/dashboard/reports?x=1"⟩
    "admin@example.com" "admin123" adminRecord rfl rfl
    (by decide) (by decide) (by decide) (by decide)
  exact ⟨h.1, h.2.1 "/dashboard/reports?x=1" rfl (by decide)⟩

/-- C9: every login attempt that ends in a failure — invalid input,
unknown email, wrong password, or collaborator error — establishes no
session state: the session token in the outcome is `none` whenever the
result is a failure, because session issuance happens only on the branch
where validation, lookup and password verification all succeeded. -/
theorem login_failure_establishes_no_session (verify : String → String → Bool)
    (db : List UserRecord) (fault : Option String) (fd : LoginFormData)
    (h : isLoginFailure (loginAction verify db fault fd).result = true) :
    (loginAction verify db fault fd).session = none := by
  simp only [loginAction] at h ⊢
  cases hparse : loginSchemaParse fd.email fd.password (resolveFrom fd.fromField) with
  | error m => simp [hparse]
  | ok pr =>
    obtain ⟨creds, fromV⟩ := pr
    simp only [hparse] at h ⊢
    cases hf : fault with
    | some t =>
      by_cases ht : t = "CredentialsSignin" <;>
        simp [signInCredentials, hf, ht]
    | none =>
      cases hauth : authorize verify db ⟨some creds.email, some creds.password⟩ with
      | none => simp [signInCredentials, hauth]
      | some u =>
        exfalso
        rw [hf] at h
        simp [signInCredentials, hauth, isLoginFailure] at h

/-- Witness for C9: the failed attempt with unknown email has a failure
result and no session. -/
theorem login_failure_establishes_no_session_witness :
    isLoginFailure (loginAction testVerify testDb none
      ⟨some "ghost@example.com", some "admin123", none⟩).result = true ∧
    (loginAction testVerify testDb none
      ⟨some "ghost@example.com", some "admin123", none⟩).session = none :=
  ⟨by decide, login_failure_establishes_no_session testVerify testDb none
    ⟨some "ghost@example.com", some "admin123", none⟩ (by decide)⟩

/-- C10: every `from` value the route guard itself attaches to a login
redirect is the original pathname plus optional query, a same-origin
relative path beginning with `/dashboard` (in particular not
protocol-relative, hence never an absolute URL), and the redirect
location is exactly the login path with that value percent-encoded. -/
theorem guard_from_param_stays_in_dashboard (req : GuardRequest) (loc : String)
    (h : routeGuard req = .redirect loc) :
    strStartsWith (loginFromParam req) "/dashboard" = true ∧
    strStartsWith (loginFromParam req) "//" = false ∧
    loc = "/auth/v1/login?from=" ++ urlencode (loginFromParam req) := by
  simp only [routeGuard] at h
  split at h
  · simp only [proxyHandler] at h
    split at h
    · rename_i hcond
      have hs : strStartsWith req.pathname "/dashboard" = true := by
        simp only [Bool.and_eq_true] at hcond
        exact hcond.1
      have h1 : strStartsWith (loginFromParam req) "/dashboard" = true := by
        unfold loginFromParam
        exact strStartsWith_append _ _ _ hs
      exact ⟨h1, startsWith_dashboard_not_doubleslash _ h1,
        (GuardResponse.redirect.inj h).symm⟩
    · exact absurd h (by simp)
  · exact absurd h (by simp)

/-- Witness for C10: at the concrete redirect for
`/dashboard/reports?x=1`, the attached `from` value `/dashboard/reports?x=1`
begins with `/dashboard` and is not protocol-relative. -/
theorem guard_from_param_stays_in_dashboard_witness :
    strStartsWith (loginFromParam ⟨"/dashboard/reports", "x=1", false⟩)
      "/dashboard" = true ∧
    strStartsWith (loginFromParam ⟨"/dashboard/reports", "x=1", false⟩)
      "//" = false ∧
    ("/auth/v1/login?from=%2Fdashboard%2Freports%3Fx%3D1" : String) =
      "/auth/v1/login?from=" ++
        urlencode (loginFromParam ⟨"/dashboard/reports", "x=1", false⟩) :=
  guard_from_param_stays_in_dashboard ⟨"/dashboard/reports", "x=1", false⟩
    "/auth/v1/login?from=%2Fdashboard%2Freports%3Fx%3D1" (by decide)
